import Mathlib

/-!
# ShelterSignal — verification of the natural-language specification

Shallow embedding of the ShelterSignal frontend (Next.js/TypeScript) in Lean 4.

Source files embedded here:
* `frontend/src/types/index.ts` — the `PropertyData` data model and the
  `pages/api/property.ts` proxy `handler` (both live in the concatenated
  `src/frontend/src/types/index.ts` source file);
* `frontend/src/lib/utils.ts` — the formatting helpers `formatCurrency`,
  `formatNumber`, `formatDate`, `getTrendColor`;
* `frontend/src/app/page.tsx` — `handleSearchSubmit` and the error-alert
  rendering of `HomePage`;
* `frontend/src/components/insightsdashboard.tsx` — `InsightsDashboard`
  section rendering;
* `frontend/src/components/PredictionChart.tsx` — the plotted series
  construction of `PredictionChart`.

Modelling conventions:
* JS `number` values are modelled as `Int` (every value exercised by the
  spec's properties is integral);
* a TS field of type `T | null | undefined` is modelled as `Option T` when
  the code treats `null` and `undefined` identically (it always does here,
  via `value === null || typeof value === 'undefined'`, `!x`, `x?.`, `&&`);
  where a claim talks about `null` and `undefined` separately the argument
  type `JsOpt` keeps them apart;
* JS string falsiness (`""` is falsy) is modelled explicitly (`jsOrStr`);
* dates are kept as strings; the parsing performed by `new Date(s)` is
  modelled for ISO `YYYY-MM-DD` strings (the only format the system's data
  model documents), with display assumed in UTC.
-/

namespace ShelterSignal

/-- A JS optional value distinguishing `null` from `undefined` from a value,
for the helpers of `frontend/src/lib/utils.ts` whose spec talks about
`null` and `undefined` separately. -/
inductive JsOpt (α : Type) where
  | null : JsOpt α
  | undef : JsOpt α
  | val (a : α) : JsOpt α
deriving DecidableEq, Repr

/-! ## Data model — `frontend/src/types/index.ts` -/

/-- `interface HistoricalValue { date: string; value: number }`. -/
structure HistoricalValue where
  date : String
  value : Int
deriving DecidableEq, Repr

/-- `interface PredictionPoint { date: string; value: number }`. -/
structure PredictionPoint where
  date : String
  value : Int
deriving DecidableEq, Repr

/-- `interface CensusData` — four optional population statistics. -/
structure CensusData where
  totalPopulation : Option Int := none
  malePopulation : Option Int := none
  femalePopulation : Option Int := none
  medianAge : Option Int := none
deriving DecidableEq, Repr

/-- The TS union `'Increasing' | 'Decreasing' | 'Stable' | 'Unknown' | 'Error'`. -/
inductive MarketTrend where
  | increasing
  | decreasing
  | stable
  | unknown
  | error
deriving DecidableEq, Repr

/-- The literal string carried by each `MarketTrend` union member. -/
def MarketTrend.asString : MarketTrend → String
  | .increasing => "Increasing"
  | .decreasing => "Decreasing"
  | .stable => "Stable"
  | .unknown => "Unknown"
  | .error => "Error"

/-- `interface PropertyData` — the unified, mostly-optional result record
(the later, superset revision in `frontend/src/types/index.ts`). -/
structure PropertyData where
  id : Option String := none
  address : Option String := none
  formattedAddress : Option String := none
  latitude : Option Int := none
  longitude : Option Int := none
  bedrooms : Option Int := none
  bathrooms : Option Int := none
  squareFootage : Option Int := none
  lotSize : Option Int := none
  yearBuilt : Option Int := none
  propertyType : Option String := none
  description : Option String := none
  valueEstimate : Option Int := none
  valueEstimateLow : Option Int := none
  valueEstimateHigh : Option Int := none
  rentEstimate : Option Int := none
  rentEstimateLow : Option Int := none
  rentEstimateHigh : Option Int := none
  lastSoldDate : Option String := none
  lastSoldPrice : Option Int := none
  zipCode : Option String := none
  predictedValueNextYear : Option Int := none
  predictionConfidence : Option Int := none
  predictedRentNextYear : Option Int := none
  marketTrend : Option MarketTrend := none
  trendConfidence : Option Int := none
  historicalValues : Option (List HistoricalValue) := none
  predictionPoints : Option (List PredictionPoint) := none
  censusData : Option CensusData := none
  aiSummary : Option String := none
deriving DecidableEq, Repr

/-! ## Formatting helpers — `frontend/src/lib/utils.ts` -/

/-- The character for a single decimal digit `d < 10`. -/
def digitChar (d : Nat) : Char := Char.ofNat (48 + d)

/-- Decimal digits of a natural number, most significant first.
Fuel-based so that the kernel can evaluate it; `natDigits` supplies
enough fuel for any input. -/
def natDigitsAux : Nat → Nat → List Char
  | 0, _ => []
  | fuel + 1, n =>
      if n < 10 then [digitChar n]
      else natDigitsAux fuel (n / 10) ++ [digitChar (n % 10)]

/-- Decimal digits of a natural number, most significant first. -/
def natDigits (n : Nat) : List Char := natDigitsAux (n + 1) n

/-- Plain decimal rendering of a natural number (no grouping), as produced
by JS default number-to-string conversion for integers. -/
def natStr (n : Nat) : String := String.mk (natDigits n)

/-- Insert a comma after every group of three characters of a reversed
digit list: the `en-US` thousands grouping of `toLocaleString`. -/
def group3 : List Char → List Char
  | a :: b :: c :: d :: tl => a :: b :: c :: ',' :: group3 (d :: tl)
  | l => l

/-- `en-US` thousands grouping of a digit string, e.g. `"1234567" ↦ "1,234,567"`. -/
def groupDigits (s : String) : String :=
  String.mk (group3 s.data.reverse).reverse

/-- Decimal rendering of a natural number with `en-US` thousands grouping. -/
def groupedNat (n : Nat) : String := groupDigits (natStr n)

/--
`formatCurrency` from `frontend/src/lib/utils.ts`:

```ts
export const formatCurrency = (value?: number | null,
    maximumFractionDigits: number = 0): string => {
  if (value === null || typeof value === 'undefined') return 'N/A';
  try {
    return value.toLocaleString('en-US', { style: 'currency',
        currency: 'USD', maximumFractionDigits });
  } catch (error) { return 'N/A'; }
};
```

`toLocaleString('en-US', {style:'currency', currency:'USD'})` for an
integral value renders a leading `-` for negatives, a `$`, the grouped
integer digits, and `min 2 maximumFractionDigits` zero fraction digits
(USD's default minimum of 2 fraction digits is clamped down to the
requested maximum). -/
def formatCurrency (value : JsOpt Int) (maximumFractionDigits : Nat := 0) : String :=
  match value with
  | .null => "N/A"
  | .undef => "N/A"
  | .val n =>
      let shownFrac := min 2 maximumFractionDigits
      (if n < 0 then "-$" else "$") ++
        (groupedNat n.natAbs ++
          (if shownFrac = 0 then ""
           else "." ++ String.mk (List.replicate shownFrac '0')))

/--
`formatNumber` from `frontend/src/lib/utils.ts`:
`value.toLocaleString('en-US')` for an integral value is the grouped
decimal rendering, with a leading `-` for negatives;
`null`/`undefined` yield `'N/A'`. -/
def formatNumber (value : JsOpt Int) : String :=
  match value with
  | .null => "N/A"
  | .undef => "N/A"
  | .val n => (if n < 0 then "-" else "") ++ groupedNat n.natAbs

/-- Numeric value of a decimal digit character. -/
def digitVal (c : Char) : Nat := c.toNat - 48

/-- Leap-year test (Gregorian), as used by JS `Date`. -/
def isLeapYear (y : Nat) : Bool :=
  (y % 4 = 0 && y % 100 ≠ 0) || y % 400 = 0

/-- Days in a month, as validated by JS ISO date parsing. -/
def daysInMonth (y m : Nat) : Nat :=
  if m = 2 then (if isLeapYear y then 29 else 28)
  else if m = 4 ∨ m = 6 ∨ m = 9 ∨ m = 11 then 30
  else 31

/-- `new Date(s)` for an ISO `YYYY-MM-DD` string: parses the year, month
and day and yields an invalid date (`none`) for any other shape or for
out-of-range components. -/
def parseYMD (s : String) : Option (Nat × Nat × Nat) :=
  match s.data with
  | [y1, y2, y3, y4, '-', m1, m2, '-', d1, d2] =>
      if [y1, y2, y3, y4, m1, m2, d1, d2].all Char.isDigit then
        let y := ((digitVal y1 * 10 + digitVal y2) * 10 + digitVal y3) * 10 + digitVal y4
        let m := digitVal m1 * 10 + digitVal m2
        let d := digitVal d1 * 10 + digitVal d2
        if 1 ≤ m ∧ m ≤ 12 ∧ 1 ≤ d ∧ d ≤ daysInMonth y m then some (y, m, d)
        else none
      else none
  | _ => none

/-- `month: 'short'` names of `toLocaleDateString('en-US', ...)`. -/
def monthShort (m : Nat) : String :=
  match m with
  | 1 => "Jan" | 2 => "Feb" | 3 => "Mar" | 4 => "Apr"
  | 5 => "May" | 6 => "Jun" | 7 => "Jul" | 8 => "Aug"
  | 9 => "Sep" | 10 => "Oct" | 11 => "Nov" | 12 => "Dec"
  | _ => ""

/--
`formatDate` from `frontend/src/lib/utils.ts`:

```ts
export const formatDate = (dateString?: string | null): string => {
  if (!dateString) return 'N/A';
  try {
    const date = new Date(dateString);
    if (isNaN(date.getTime())) return 'Invalid Date';
    return date.toLocaleDateString('en-US',
        { year: 'numeric', month: 'short', day: 'numeric' });
  } catch (e) { return 'Invalid Date'; }
}
```

`!dateString` is true for `null`, `undefined` and the empty string;
display is modelled in UTC, so a parsed `YYYY-MM-DD` renders as e.g.
`"Jan 1, 2023"`. -/
def formatDate (dateString : JsOpt String) : String :=
  match dateString with
  | .null => "N/A"
  | .undef => "N/A"
  | .val s =>
      if s = "" then "N/A"
      else
        match parseYMD s with
        | none => "Invalid Date"
        | some (y, m, d) => monthShort m ++ " " ++ natStr d ++ ", " ++ natStr y

/-- The Tailwind class string returned by `getTrendColor` for `'increasing'`. -/
def trendClassIncreasing : String :=
  "bg-green-100 text-green-800 border-green-300 dark:bg-green-900/30 dark:text-green-300 dark:border-green-700"

/-- The Tailwind class string returned by `getTrendColor` for `'decreasing'`. -/
def trendClassDecreasing : String :=
  "bg-red-100 text-red-800 border-red-300 dark:bg-red-900/30 dark:text-red-300 dark:border-red-700"

/-- The Tailwind class string returned by `getTrendColor` for `'stable'`. -/
def trendClassStable : String :=
  "bg-gray-100 text-gray-800 border-gray-300 dark:bg-gray-700/30 dark:text-gray-300 dark:border-gray-600"

/-- The default Tailwind class string of `getTrendColor` (null, undefined,
`'Unknown'`, `'Error'`, anything unrecognised). -/
def trendClassDefault : String :=
  "bg-yellow-100 text-yellow-800 border-yellow-300 dark:bg-yellow-900/30 dark:text-yellow-300 dark:border-yellow-700"

/-- ASCII lowercase of one character, as `toLowerCase` acts on the
ASCII trend labels of this system. -/
def asciiLower (c : Char) : Char :=
  if 'A' ≤ c ∧ c ≤ 'Z' then Char.ofNat (c.toNat + 32) else c

/-- ASCII lowercase of a string (`String.toLowerCase` restricted to the
ASCII alphabet used by the trend labels). -/
def lowerStr (s : String) : String := String.mk (s.data.map asciiLower)

/--
`getTrendColor` from `frontend/src/lib/utils.ts`: a `switch` on
`trend?.toLowerCase()` with a default style for any unrecognised input;
`trend?.` turns `null`/`undefined` into `undefined`, which falls to the
`default` case. -/
def getTrendColor (trend : JsOpt String) : String :=
  match trend with
  | .null => trendClassDefault
  | .undef => trendClassDefault
  | .val s =>
      if lowerStr s = "increasing" then trendClassIncreasing
      else if lowerStr s = "decreasing" then trendClassDecreasing
      else if lowerStr s = "stable" then trendClassStable
      else trendClassDefault

/-! ## Proxy endpoint — `frontend/pages/api/property.ts` (`handler`) -/

/-- JS `String.prototype.trim`: strip leading and trailing whitespace
(modelled over the ASCII whitespace characters). -/
def jsTrim (s : String) : String :=
  String.mk
    (((s.data.dropWhile Char.isWhitespace).reverse.dropWhile Char.isWhitespace).reverse)

/-- JS `a || b` at string type: `b` when `a` is `null`, `undefined` or the
empty string (falsy), `a` otherwise. -/
def jsOrStr (a : Option String) (b : String) : String :=
  match a with
  | some s => if s = "" then b else s
  | none => b

/-- A Next.js query parameter value: `req.query.address` is
`string | string[] | undefined`. -/
inductive QueryVal where
  | missing
  | str (s : String)
  | arr (l : List String)
deriving DecidableEq, Repr

/-- An axios HTTP error's `response`, projected to the parts the handler
reads: the status and `response.data?.message`. -/
structure AxiosResp where
  status : Nat
  message : Option String
deriving DecidableEq, Repr

/-- The outcome of the `axios.get` call to the backend aggregation service.
`resolved` is a fulfilled promise (axios's default `validateStatus`
fulfils exactly for 2xx); `axiosError` is a rejected promise carrying an
optional HTTP response (absent for a timeout or network failure) and the
error's `message` string; `otherError` is any non-axios exception. -/
inductive BackendResult where
  | resolved (status : Nat) (data : Option PropertyData)
  | axiosError (response : Option AxiosResp) (message : String)
  | otherError
deriving DecidableEq, Repr

/-- A proxy response body: either the relayed `PropertyData` JSON or an
`ApiErrorResponse` `{ message }`. -/
inductive ResponseBody where
  | data (d : PropertyData)
  | msg (m : String)
deriving DecidableEq, Repr

/-- An HTTP response produced by the proxy handler. -/
structure HandlerResponse where
  status : Nat
  body : ResponseBody
deriving DecidableEq, Repr

/-- Default message used when neither the backend nor axios supplies one. -/
def backendFallbackMsg : String := "Error fetching data from backend service."

/--
The proxy `handler` of `frontend/pages/api/property.ts` (authoritative
revision, embedded in `src/frontend/src/types/index.ts` lines 75–131).
Besides the `HandlerResponse`, the result records whether the outbound
backend call was made (`true` exactly when `axios.get` was reached).

* non-GET method → 405 `Method <m> Not Allowed`, no backend call;
* `!address || typeof address !== 'string' || address.trim() === ''`
  → 400, no backend call;
* backend fulfilled: status 200 with truthy data is relayed as 200,
  anything else → 500 invalid-response message;
* axios error: status `response?.status || 500` (`0` is JS-falsy), message
  `backendMessage || error.message || default`;
* other exception → 500 unexpected-error message. -/
def handler (method : String) (address : QueryVal) (backend : BackendResult) :
    HandlerResponse × Bool :=
  if method ≠ "GET" then
    (⟨405, .msg ("Method " ++ method ++ " Not Allowed")⟩, false)
  else
    let invalid :=
      match address with
      | .missing => true
      | .arr _ => true
      | .str s => jsTrim s = ""
    if invalid then
      (⟨400, .msg "Address query parameter is required and cannot be empty."⟩, false)
    else
      match backend with
      | .resolved status data =>
          match data with
          | some d =>
              if status = 200 then (⟨200, .data d⟩, true)
              else (⟨500, .msg "Received invalid response from backend service."⟩, true)
          | none => (⟨500, .msg "Received invalid response from backend service."⟩, true)
      | .axiosError response message =>
          let st :=
            match response with
            | some r => if r.status = 0 then 500 else r.status
            | none => 500
          let backendMessage := response.bind AxiosResp.message
          (⟨st, .msg (jsOrStr backendMessage (jsOrStr (some message) backendFallbackMsg))⟩,
            true)
      | .otherError =>
          (⟨500, .msg "An unexpected error occurred while fetching property data."⟩, true)

/-! ## Home page — `frontend/src/app/page.tsx` -/

/-- The outcome of the `axios.get('/api/property')` call made by
`handleSearchSubmit`: fulfilled with a (possibly null) body, rejected as
an axios error (with the proxy's response when one arrived), or any other
thrown `Error`. -/
inductive FetchOutcome where
  | success (data : Option PropertyData)
  | axiosError (response : Option AxiosResp) (message : String)
  | otherError (message : String)
deriving DecidableEq, Repr

/-- The UI state of `HomePage` after a search settles. -/
structure HomeState where
  propertyData : Option PropertyData
  error : Option String
  isNotFoundError : Bool
  isLoading : Bool
deriving DecidableEq, Repr

/-- Default message of the 404 branch of `handleSearchSubmit`. -/
def notFoundDefaultMsg : String :=
  "No data found for the specified address. Please check the address and try again."

/--
`handleSearchSubmit` of `frontend/src/app/page.tsx`, as the state it leaves
behind once the request settles:

* fulfilled with truthy data → data stored, no error;
* fulfilled with falsy data → throws, caught as a plain `Error` with
  message `"Received empty data from server."`;
* axios error with `response.status === 404` → error message is
  `response.data?.message || <default not-found message>` and
  `isNotFoundError` is set;
* any other axios error → `response?.data?.message || error.message`,
  `isNotFoundError` stays false;
* other `Error` → its message. -/
def handleSearchSubmit (outcome : FetchOutcome) : HomeState :=
  match outcome with
  | .success (some d) =>
      { propertyData := some d, error := none, isNotFoundError := false, isLoading := false }
  | .success none =>
      { propertyData := none, error := some "Received empty data from server.",
        isNotFoundError := false, isLoading := false }
  | .axiosError response message =>
      match response with
      | some r =>
          if r.status = 404 then
            { propertyData := none,
              error := some (jsOrStr r.message notFoundDefaultMsg),
              isNotFoundError := true, isLoading := false }
          else
            { propertyData := none,
              error := some (jsOrStr r.message message),
              isNotFoundError := false, isLoading := false }
      | none =>
          { propertyData := none, error := some message,
            isNotFoundError := false, isLoading := false }
  | .otherError message =>
      { propertyData := none, error := some message,
        isNotFoundError := false, isLoading := false }

/-- The error alert rendered by `HomePage`. -/
inductive AlertView where
  | hidden
  | alert (variant : String) (title : String) (descr : String)
deriving DecidableEq, Repr

/--
The alert section of `HomePage`'s JSX: rendered only when `error` is
truthy and `isLoading` is false; variant `"default"` (informational) with
title `"Information"` when `isNotFoundError`, else variant
`"destructive"` with title `"Search Failed"`. -/
def renderAlert (st : HomeState) : AlertView :=
  match st.error with
  | some e =>
      if e ≠ "" ∧ st.isLoading = false then
        .alert (if st.isNotFoundError then "default" else "destructive")
          (if st.isNotFoundError then "Information" else "Search Failed") e
      else .hidden
  | none => .hidden

/-! ## Prediction chart — `frontend/src/components/PredictionChart.tsx` -/

/--
The combined point list plotted by `PredictionChart`:

```ts
const combinedData = historicalData && historicalData.length > 0
    ? [historicalData[historicalData.length - 1], ...data]
    : data;
```
-/
def predictionCombinedData (data : List PredictionPoint)
    (historicalData : Option (List PredictionPoint)) : List PredictionPoint :=
  match historicalData with
  | some h =>
      match h.getLast? with
      | some lastPoint => lastPoint :: data
      | none => data
  | none => data

/-- `combinedChartData = combinedData.map(item => [item.date, item.value])`. -/
def predictionChartSeries (data : List PredictionPoint)
    (historicalData : Option (List PredictionPoint)) : List (String × Int) :=
  (predictionCombinedData data historicalData).map fun p => (p.date, p.value)

/-- `chartData = data.map(item => [item.date, item.value])` of
`ValueHistoryChart` (`frontend/src/components/valuehistorychart.tsx`). -/
def valueHistoryChartSeries (data : List HistoricalValue) : List (String × Int) :=
  data.map fun p => (p.date, p.value)

/-! ## Dashboard — `frontend/src/components/insightsdashboard.tsx` -/

/-- A dashboard chart section: either a rendered chart over `[date, value]`
pairs or its empty-state placeholder text. -/
inductive SectionView where
  | chart (points : List (String × Int))
  | placeholder (text : String)
deriving DecidableEq, Repr

/-- The Demographics section: either the rendered `CensusDataItem`s
(label, formatted value) or the placeholder text. -/
inductive DemographicsView where
  | items (l : List (String × String))
  | placeholder (text : String)
deriving DecidableEq, Repr

/-- The observable output of `InsightsDashboard`'s data-display state,
projected to the sections the spec's properties talk about. -/
structure DashboardBody where
  demographics : DemographicsView
  historical : SectionView
  forecast : SectionView
deriving DecidableEq, Repr

/-- The three top-level render states of `InsightsDashboard`. -/
inductive DashboardView where
  | skeleton
  | empty
  | card (body : DashboardBody)
deriving DecidableEq, Repr

/--
`CensusDataItem` of `insightsdashboard.tsx`: formats a numeric value with
`formatNumber` and renders nothing (`null`) when the value is absent or
formats to `'N/A'`. -/
def CensusDataItem (label : String) (value : Option Int) : Option (String × String) :=
  let displayValue := value.map fun n => formatNumber (.val n)
  match displayValue with
  | none => none
  | some s => if s = "N/A" then none else some (label, s)

/-- `hasCensusData`: `data.censusData && Object.values(data.censusData)
.some(v => v !== null && typeof v !== 'undefined')`. -/
def hasCensusData (data : PropertyData) : Bool :=
  match data.censusData with
  | some c =>
      c.totalPopulation.isSome || c.malePopulation.isSome ||
        c.femalePopulation.isSome || c.medianAge.isSome
  | none => false

/-- `hasHistoricalData`: `data.historicalValues && data.historicalValues.length > 0`. -/
def hasHistoricalData (data : PropertyData) : Bool :=
  match data.historicalValues with
  | some l => l.length > 0
  | none => false

/-- `hasPredictionPoints`: `data.predictionPoints && data.predictionPoints.length > 0`. -/
def hasPredictionPoints (data : PropertyData) : Bool :=
  match data.predictionPoints with
  | some l => l.length > 0
  | none => false

/-- The `HistoricalValue → PredictionPoint` cast the dashboard performs
when passing `historicalData` to `PredictionChart`. -/
def HistoricalValue.toPredictionPoint (h : HistoricalValue) : PredictionPoint :=
  ⟨h.date, h.value⟩

/-- `data.historicalValues?.slice(-1)`: the at-most-one-element suffix,
`undefined` when `historicalValues` is absent. -/
def lastHistoricalSlice (data : PropertyData) : Option (List PredictionPoint) :=
  data.historicalValues.map fun l =>
    (l.drop (l.length - 1)).map HistoricalValue.toPredictionPoint

/--
`InsightsDashboard` of `frontend/src/components/insightsdashboard.tsx`,
projected to its observable section structure:

* `isLoading` → skeleton; `data === null` → nothing;
* Demographics: four `CensusDataItem`s when `hasCensusData`, else the
  "not available" placeholder;
* Historical Value Trend: `ValueHistoryChart` over `historicalValues`
  when `hasHistoricalData`, else its placeholder;
* Value Forecast: `PredictionChart` over `predictionPoints` (with the
  last historical point as context) when `hasPredictionPoints`, else the
  "could not be generated" placeholder. -/
def InsightsDashboard (data : Option PropertyData) (isLoading : Bool) : DashboardView :=
  if isLoading then .skeleton
  else
    match data with
    | none => .empty
    | some d =>
        .card
          { demographics :=
              if hasCensusData d then
                .items
                  (([CensusDataItem "Total Population"
                        (d.censusData.bind CensusData.totalPopulation),
                      CensusDataItem "Median Age"
                        (d.censusData.bind CensusData.medianAge),
                      CensusDataItem "Male Population"
                        (d.censusData.bind CensusData.malePopulation),
                      CensusDataItem "Female Population"
                        (d.censusData.bind CensusData.femalePopulation)]).filterMap id)
              else .placeholder "Demographic data is not available for this area."
            historical :=
              if hasHistoricalData d then
                .chart (valueHistoryChartSeries (d.historicalValues.getD []))
              else .placeholder "Historical value data is not available for this property."
            forecast :=
              if hasPredictionPoints d then
                .chart (predictionChartSeries (d.predictionPoints.getD [])
                  (lastHistoricalSlice d))
              else .placeholder "Value forecast chart could not be generated." }

/-! ## Spec-modelled backend construction

The backend aggregator (`backend/main.py`), which constructs the
`PropertyData` record, is not among the sources under `src/` — only two of
its provider clients are. The definitions below model the missing
construction from the spec's words. -/

/-- Lexicographic less-or-equal on character lists (by code point); on
ISO `YYYY-MM-DD` date strings this is chronological order. -/
def charsLe : List Char → List Char → Bool
  | [], _ => true
  | _ :: _, [] => false
  | a :: as, b :: bs =>
      if a.toNat < b.toNat then true
      else if b.toNat < a.toNat then false
      else charsLe as bs

/-- Ascending-date ordering on historical points. -/
def hvDateLe (a b : HistoricalValue) : Prop := charsLe a.date.data b.date.data = true

instance : DecidableRel hvDateLe :=
  fun a b => inferInstanceAs (Decidable (charsLe a.date.data b.date.data = true))

/-- Ascending-date ordering on prediction points. -/
def ppDateLe (a b : PredictionPoint) : Prop := charsLe a.date.data b.date.data = true

instance : DecidableRel ppDateLe :=
  fun a b => inferInstanceAs (Decidable (charsLe a.date.data b.date.data = true))

/-- Modelled from the spec: the backend aggregator's construction of the
`historicalValues` field is missing from `src/`. Per the spec's data-model
invariants, "historical/prediction point sequences, when present, are
non-empty and ordered by ascending date": the provider's raw points are
sorted by ascending date, and an empty collection yields an absent field. -/
def mkHistoricalSeries (raw : List HistoricalValue) : Option (List HistoricalValue) :=
  if raw = [] then none else some (List.insertionSort hvDateLe raw)

/-- Modelled from the spec: the backend aggregator's construction of the
`predictionPoints` field, exactly as `mkHistoricalSeries`. -/
def mkPredictionSeries (raw : List PredictionPoint) : Option (List PredictionPoint) :=
  if raw = [] then none else some (List.insertionSort ppDateLe raw)

/-- Modelled from the spec: the aggregator merges the provider clients'
partial records (`base`) into one `PropertyData` object and attaches the
time-ordered point sequences. -/
def mkPropertyData (base : PropertyData) (rawHist : List HistoricalValue)
    (rawPred : List PredictionPoint) : PropertyData :=
  { base with
    historicalValues := mkHistoricalSeries rawHist
    predictionPoints := mkPredictionSeries rawPred }


/-! ## Helper lemmas -/

theorem str_eq_empty_iff (s : String) : s = "" ↔ s.data = [] := by
  rw [String.ext_iff]

theorem str_append_ne_left (s t : String) (h : s ≠ "") : s ++ t ≠ "" := by
  intro hc
  rw [str_eq_empty_iff, String.data_append, List.append_eq_nil] at hc
  exact h ((str_eq_empty_iff s).mpr hc.1)

theorem str_append_ne_right (s t : String) (h : t ≠ "") : s ++ t ≠ "" := by
  intro hc
  rw [str_eq_empty_iff, String.data_append, List.append_eq_nil] at hc
  exact h ((str_eq_empty_iff t).mpr hc.2)

theorem jsOrStr_ne_empty (a : Option String) (b : String) (hb : b ≠ "") :
    jsOrStr a b ≠ "" := by
  cases a with
  | none => simpa [jsOrStr]
  | some s => by_cases hs : s = "" <;> simp [jsOrStr, hs, hb]

theorem natDigitsAux_ne_nil (fuel n : Nat) (h : fuel ≠ 0) : natDigitsAux fuel n ≠ [] := by
  cases fuel with
  | zero => exact absurd rfl h
  | succ f =>
      simp only [natDigitsAux]
      split <;> simp

theorem natDigits_ne_nil (n : Nat) : natDigits n ≠ [] :=
  natDigitsAux_ne_nil (n + 1) n (Nat.succ_ne_zero n)

theorem natStr_ne_empty (n : Nat) : natStr n ≠ "" := by
  rw [Ne, str_eq_empty_iff]
  exact natDigits_ne_nil n

theorem group3_eq_nil_iff (l : List Char) : group3 l = [] ↔ l = [] := by
  match l with
  | [] => simp [group3]
  | [a] => simp [group3]
  | [a, b] => simp [group3]
  | [a, b, c] => simp [group3]
  | a :: b :: c :: d :: tl => simp [group3]

theorem groupedNat_ne_empty (n : Nat) : groupedNat n ≠ "" := by
  rw [Ne, str_eq_empty_iff]
  show (group3 (natStr n).data.reverse).reverse ≠ []
  rw [Ne, List.reverse_eq_nil_iff, group3_eq_nil_iff, List.reverse_eq_nil_iff]
  exact natDigits_ne_nil n

theorem formatCurrency_ne_empty (v : JsOpt Int) (f : Nat) : formatCurrency v f ≠ "" := by
  cases v with
  | null => simp [formatCurrency]
  | undef => simp [formatCurrency]
  | val n =>
      simp only [formatCurrency]
      split <;> exact str_append_ne_left _ _ (by decide)

theorem formatNumber_ne_empty (v : JsOpt Int) : formatNumber v ≠ "" := by
  cases v with
  | null => decide
  | undef => decide
  | val n =>
      simp only [formatNumber]
      exact str_append_ne_right _ _ (groupedNat_ne_empty _)

theorem formatDate_ne_empty (s : JsOpt String) : formatDate s ≠ "" := by
  cases s with
  | null => decide
  | undef => decide
  | val s =>
      simp only [formatDate]
      split
      · decide
      · split
        · decide
        · exact str_append_ne_right _ _ (natStr_ne_empty _)

theorem getTrendColor_ne_empty (t : JsOpt String) : getTrendColor t ≠ "" := by
  cases t with
  | null => decide
  | undef => decide
  | val s =>
      simp only [getTrendColor]
      split
      · decide
      · split
        · decide
        · split <;> decide

theorem charsLe_total (x y : List Char) : charsLe x y = true ∨ charsLe y x = true := by
  induction x generalizing y with
  | nil => left; rfl
  | cons a as ih =>
      cases y with
      | nil => right; rfl
      | cons b bs =>
          simp only [charsLe]
          rcases Nat.lt_trichotomy a.toNat b.toNat with h | h | h
          · left; simp [h]
          · rcases ih bs with h2 | h2
            · left; simp [Nat.lt_irrefl, h, h2]
            · right; simp [Nat.lt_irrefl, h, h2]
          · right; simp [h]

theorem charsLe_trans (x y z : List Char) (hxy : charsLe x y = true)
    (hyz : charsLe y z = true) : charsLe x z = true := by
  induction x generalizing y z with
  | nil => rfl
  | cons a as ih =>
      cases y with
      | nil => simp [charsLe] at hxy
      | cons b bs =>
          cases z with
          | nil => simp [charsLe] at hyz
          | cons c cs =>
              simp only [charsLe] at hxy hyz ⊢
              rcases Nat.lt_trichotomy a.toNat b.toNat with h1 | h1 | h1
              · rcases Nat.lt_trichotomy b.toNat c.toNat with h2 | h2 | h2
                · simp [show a.toNat < c.toNat by omega]
                · simp [show a.toNat < c.toNat by omega]
                · rw [if_neg (by omega), if_pos h2] at hyz
                  exact absurd hyz (by simp)
              · rcases Nat.lt_trichotomy b.toNat c.toNat with h2 | h2 | h2
                · simp [show a.toNat < c.toNat by omega]
                · rw [if_neg (by omega), if_neg (by omega)] at hxy
                  rw [if_neg (by omega), if_neg (by omega)] at hyz
                  rw [if_neg (by omega), if_neg (by omega)]
                  exact ih bs cs hxy hyz
                · rw [if_neg (by omega), if_pos h2] at hyz
                  exact absurd hyz (by simp)
              · rw [if_neg (by omega), if_pos h1] at hxy
                exact absurd hxy (by simp)

/-! ## Claim theorems -/

/-- C1: for every incoming GET request whose `address` query parameter is
absent, not a single string, or trims to the empty string, the proxy
handler responds with status 400 and a body carrying a message field, and
the outbound call to the backend aggregation service is never made (the
second component of `handler`'s result is `false`). -/
theorem c1_invalid_address_rejected (q : QueryVal) (b : BackendResult)
    (h : q = .missing ∨ (∃ l, q = .arr l) ∨ (∃ s, q = .str s ∧ jsTrim s = "")) :
    handler "GET" q b =
      (⟨400, .msg "Address query parameter is required and cannot be empty."⟩, false) := by
  rcases h with h | ⟨l, h⟩ | ⟨s, h, hs⟩
  · subst h; rfl
  · subst h; rfl
  · subst h; simp [handler, hs]

/-- Witness for C1: a whitespace-only address is rejected without a
backend call. -/
theorem c1_witness :
    handler "GET" (.str "   ") (.resolved 200 none) =
      (⟨400, .msg "Address query parameter is required and cannot be empty."⟩, false) :=
  c1_invalid_address_rejected (.str "   ") (.resolved 200 none)
    (Or.inr (Or.inr ⟨"   ", rfl, by decide⟩))

/-- C4: for every incoming request whose HTTP method is not GET, the proxy
handler responds 405 with a message field and performs no backend call. -/
theorem c4_non_get_rejected (method : String) (q : QueryVal) (b : BackendResult)
    (h : method ≠ "GET") :
    handler method q b =
      (⟨405, .msg ("Method " ++ method ++ " Not Allowed")⟩, false) := by
  simp [handler, h]

/-- Witness for C4: a POST request is rejected with 405 and no backend call. -/
theorem c4_witness :
    handler "POST" (.str "1 Main St") (.resolved 200 none) =
      (⟨405, .msg "Method POST Not Allowed"⟩, false) :=
  c4_non_get_rejected "POST" (.str "1 Main St") (.resolved 200 none) (by decide)

/-- Counterexample to C3 as stated: on a backend failure whose response
carries a status (503) but no message field, the claim's "otherwise"
branch demands status 500 and the default message, yet the handler relays
status 503 with the axios transport error's message. -/
theorem c3_counterexample :
    (handler "GET" (.str "123 Main St")
        (.axiosError (some ⟨503, none⟩) "Request failed with status code 503")).1 =
      ⟨503, .msg "Request failed with status code 503"⟩ ∧
    (handler "GET" (.str "123 Main St")
        (.axiosError (some ⟨503, none⟩) "Request failed with status code 503")).1.status ≠ 500 ∧
    (handler "GET" (.str "123 Main St")
        (.axiosError (some ⟨503, none⟩) "Request failed with status code 503")).1.body ≠
      .msg backendFallbackMsg := by
  refine ⟨rfl, by decide, by decide⟩

/-- C3 (amended): for every backend call that fails as an axios error, the
proxy makes the backend call and responds with the backend-supplied status
whenever a response is present (status 500 when there is none, as for a
timeout or network failure); the response message is the backend-supplied
message field when the response carries one that is non-empty, and
otherwise falls back to the transport error's message when that is
non-empty and to the non-empty default after that — so the message is
non-empty in every case. -/
theorem c3_backend_failure_relayed (a : String) (ha : jsTrim a ≠ "")
    (resp : Option AxiosResp) (emsg : String) :
    (handler "GET" (.str a) (.axiosError resp emsg)).2 = true ∧
    (∀ ar, resp = some ar → ar.status ≠ 0 →
      (handler "GET" (.str a) (.axiosError resp emsg)).1.status = ar.status) ∧
    (resp = none → (handler "GET" (.str a) (.axiosError resp emsg)).1.status = 500) ∧
    (∀ ar m, resp = some ar → ar.message = some m → m ≠ "" →
      (handler "GET" (.str a) (.axiosError resp emsg)).1.body = .msg m) ∧
    (resp.bind AxiosResp.message = none ∨ resp.bind AxiosResp.message = some "" →
      emsg ≠ "" →
      (handler "GET" (.str a) (.axiosError resp emsg)).1.body = .msg emsg) ∧
    (resp.bind AxiosResp.message = none ∨ resp.bind AxiosResp.message = some "" →
      emsg = "" →
      (handler "GET" (.str a) (.axiosError resp emsg)).1.body = .msg backendFallbackMsg) ∧
    (∃ m, (handler "GET" (.str a) (.axiosError resp emsg)).1.body = .msg m ∧ m ≠ "") := by
  refine ⟨by simp [handler, ha], ?_, ?_, ?_, ?_, ?_, ?_⟩
  · rintro ⟨s, m⟩ rfl hs
    simp [handler, ha, hs]
  · rintro rfl
    simp [handler, ha]
  · rintro ⟨s, _⟩ m rfl rfl hm
    simp [handler, ha, jsOrStr, hm]
  · rintro (hb | hb) he <;> simp [handler, ha, jsOrStr, hb, he]
  · rintro (hb | hb) he <;> simp [handler, ha, jsOrStr, hb, he]
  · exact ⟨jsOrStr (resp.bind AxiosResp.message) (jsOrStr (some emsg) backendFallbackMsg),
      by simp [handler, ha], jsOrStr_ne_empty _ _ (jsOrStr_ne_empty _ _ (by decide))⟩

/-- Witness for C3: a backend 404 with a message is relayed verbatim; a
backend 503 without a message field keeps status 503 with the transport
error's message; a network failure with an empty transport message yields
500 with the non-empty default message. -/
theorem c3_witness :
    (handler "GET" (.str "x")
        (.axiosError (some ⟨404, some "Not found"⟩) "Request failed with status code 404")).2 =
      true ∧
    (handler "GET" (.str "x")
        (.axiosError (some ⟨404, some "Not found"⟩)
          "Request failed with status code 404")).1.status = 404 ∧
    (handler "GET" (.str "x")
        (.axiosError (some ⟨404, some "Not found"⟩)
          "Request failed with status code 404")).1.body = .msg "Not found" ∧
    (handler "GET" (.str "x")
        (.axiosError (some ⟨503, none⟩)
          "Request failed with status code 503")).1.status = 503 ∧
    (handler "GET" (.str "x")
        (.axiosError (some ⟨503, none⟩)
          "Request failed with status code 503")).1.body =
      .msg "Request failed with status code 503" ∧
    (handler "GET" (.str "x") (.axiosError none "")).1.status = 500 ∧
    (handler "GET" (.str "x") (.axiosError none "")).1.body = .msg backendFallbackMsg :=
  ⟨(c3_backend_failure_relayed "x" (by decide) (some ⟨404, some "Not found"⟩)
      "Request failed with status code 404").1,
   (c3_backend_failure_relayed "x" (by decide) (some ⟨404, some "Not found"⟩)
      "Request failed with status code 404").2.1 ⟨404, some "Not found"⟩ rfl (by decide),
   (c3_backend_failure_relayed "x" (by decide) (some ⟨404, some "Not found"⟩)
      "Request failed with status code 404").2.2.2.1 ⟨404, some "Not found"⟩ "Not found"
     rfl rfl (by decide),
   (c3_backend_failure_relayed "x" (by decide) (some ⟨503, none⟩)
      "Request failed with status code 503").2.1 ⟨503, none⟩ rfl (by decide),
   (c3_backend_failure_relayed "x" (by decide) (some ⟨503, none⟩)
      "Request failed with status code 503").2.2.2.2.1 (Or.inl rfl) (by decide),
   (c3_backend_failure_relayed "x" (by decide) none "").2.2.1 rfl,
   (c3_backend_failure_relayed "x" (by decide) none "").2.2.2.2.2.1 (Or.inl rfl) rfl⟩

/-- C2: a completed search whose HTTP response has status 404 stores the
backend-supplied message (or the default not-found message) in the error
state, sets the dedicated `isNotFoundError` flag, and renders the
informational (`"default"`) alert variant; every other failure leaves
`isNotFoundError` false and renders the destructive alert variant. -/
theorem c2_not_found_informational (resp : AxiosResp) (emsg : String) :
    (resp.status = 404 →
      handleSearchSubmit (.axiosError (some resp) emsg) =
        { propertyData := none,
          error := some (jsOrStr resp.message notFoundDefaultMsg),
          isNotFoundError := true, isLoading := false } ∧
      renderAlert (handleSearchSubmit (.axiosError (some resp) emsg)) =
        .alert "default" "Information" (jsOrStr resp.message notFoundDefaultMsg)) ∧
    (resp.status ≠ 404 → emsg ≠ "" →
      (handleSearchSubmit (.axiosError (some resp) emsg)).isNotFoundError = false ∧
      renderAlert (handleSearchSubmit (.axiosError (some resp) emsg)) =
        .alert "destructive" "Search Failed" (jsOrStr resp.message emsg)) ∧
    (∀ m : String, m ≠ "" →
      renderAlert (handleSearchSubmit (.axiosError none m)) =
        .alert "destructive" "Search Failed" m) := by
  refine ⟨?_, ?_, ?_⟩
  · intro h
    have hmsg := jsOrStr_ne_empty resp.message notFoundDefaultMsg (by decide)
    constructor
    · simp [handleSearchSubmit, h]
    · simp [handleSearchSubmit, h, renderAlert, hmsg]
  · intro h hm
    have hmsg := jsOrStr_ne_empty resp.message emsg hm
    constructor
    · simp [handleSearchSubmit, h]
    · simp [handleSearchSubmit, h, renderAlert, hmsg]
  · intro m hm
    simp [handleSearchSubmit, renderAlert, hm]

/-- Witness for C2: a 404 with a backend message renders the informational
alert; a 500 and a network failure render the destructive alert. -/
theorem c2_witness :
    renderAlert (handleSearchSubmit
        (.axiosError (some ⟨404, some "No property found"⟩) "Request failed with status code 404")) =
      .alert "default" "Information" "No property found" ∧
    renderAlert (handleSearchSubmit
        (.axiosError (some ⟨500, none⟩) "Request failed with status code 500")) =
      .alert "destructive" "Search Failed" "Request failed with status code 500" ∧
    renderAlert (handleSearchSubmit (.axiosError none "Network Error")) =
      .alert "destructive" "Search Failed" "Network Error" :=
  ⟨((c2_not_found_informational ⟨404, some "No property found"⟩
      "Request failed with status code 404").1 rfl).2,
   ((c2_not_found_informational ⟨500, none⟩
      "Request failed with status code 500").2.1 (by decide) (by decide)).2,
   (c2_not_found_informational ⟨404, none⟩ "unused").2.2 "Network Error" (by decide)⟩

/-- C5: `formatCurrency` yields `"N/A"` on `null` and on `undefined`, and
`formatCurrency(1234567, 0)` yields `"$1,234,567"`. -/
theorem c5_formatCurrency_examples :
    formatCurrency .null = "N/A" ∧ formatCurrency .undef = "N/A" ∧
    formatCurrency (.val 1234567) 0 = "$1,234,567" :=
  ⟨rfl, rfl, by decide⟩

/-- C6: the four formatting helpers are pure total functions (they are
Lean functions, hence total and effect-free by construction): on every
input, including `null`, `undefined`, unparseable date strings and
unrecognised trend strings, each returns a non-empty display string — a
placeholder (`"N/A"`, `"Invalid Date"`, the default style class) for
absent or invalid input — and never throws. -/
theorem c6_formatting_helpers_total :
    ((∀ (v : JsOpt Int) (f : Nat), formatCurrency v f ≠ "") ∧
      formatCurrency .null = "N/A" ∧ formatCurrency .undef = "N/A") ∧
    ((∀ v : JsOpt Int, formatNumber v ≠ "") ∧
      formatNumber .null = "N/A" ∧ formatNumber .undef = "N/A") ∧
    ((∀ s : JsOpt String, formatDate s ≠ "") ∧
      formatDate .null = "N/A" ∧ formatDate .undef = "N/A" ∧
      (∀ s : String, s ≠ "" → parseYMD s = none → formatDate (.val s) = "Invalid Date")) ∧
    ((∀ t : JsOpt String, getTrendColor t ≠ "") ∧
      getTrendColor .null = trendClassDefault ∧ getTrendColor .undef = trendClassDefault ∧
      (∀ s : String, lowerStr s ≠ "increasing" → lowerStr s ≠ "decreasing" →
        lowerStr s ≠ "stable" → getTrendColor (.val s) = trendClassDefault)) := by
  refine ⟨⟨formatCurrency_ne_empty, rfl, rfl⟩,
    ⟨formatNumber_ne_empty, rfl, rfl⟩,
    ⟨formatDate_ne_empty, rfl, rfl, ?_⟩,
    ⟨getTrendColor_ne_empty, rfl, rfl, ?_⟩⟩
  · intro s hs hp
    simp [formatDate, hs, hp]
  · intro s h1 h2 h3
    simp [getTrendColor, h1, h2, h3]

/-- Witness for C6: an unparseable date renders the invalid-date
placeholder and an unrecognised trend gets the default style class. -/
theorem c6_witness :
    formatDate (.val "not-a-date") = "Invalid Date" ∧
    getTrendColor (.val "Sideways") = trendClassDefault :=
  ⟨c6_formatting_helpers_total.2.2.1.2.2.2 "not-a-date" (by decide) (by decide),
   c6_formatting_helpers_total.2.2.2.2.2.2 "Sideways" (by decide) (by decide) (by decide)⟩

/-- C7: for a `PropertyData` whose `historicalValues` are the two given
points and whose `predictionPoints` are absent, the dashboard renders the
historical chart with exactly those two `[date, value]` points and the
forecast section's "could not be generated" placeholder. -/
theorem c7_two_point_history_no_forecast :
    InsightsDashboard
        (some { historicalValues :=
                  some [⟨"2023-01-01", 300000⟩, ⟨"2024-01-01", 320000⟩] }) false =
      .card { demographics := .placeholder "Demographic data is not available for this area."
              historical := .chart [("2023-01-01", 300000), ("2024-01-01", 320000)]
              forecast := .placeholder "Value forecast chart could not be generated." } := by
  decide

/-- C8: for every `PropertyData` without `censusData`, the Demographics
section renders its "not available" placeholder (so none of the four
numeric census items is rendered — the `items` alternative is not taken),
whatever the other sections show. -/
theorem c8_no_census_placeholder (d : PropertyData) (h : d.censusData = none) :
    ∃ hist fore : SectionView,
      InsightsDashboard (some d) false =
        .card { demographics := .placeholder "Demographic data is not available for this area."
                historical := hist
                forecast := fore } := by
  refine
    ⟨if hasHistoricalData d then
        .chart (valueHistoryChartSeries (d.historicalValues.getD []))
      else .placeholder "Historical value data is not available for this property.",
      if hasPredictionPoints d then
        .chart (predictionChartSeries (d.predictionPoints.getD []) (lastHistoricalSlice d))
      else .placeholder "Value forecast chart could not be generated.", ?_⟩
  simp [InsightsDashboard, hasCensusData, h]

/-- Witness for C8 at the all-absent record. -/
theorem c8_witness :
    ∃ hist fore : SectionView,
      InsightsDashboard (some {}) false =
        .card { demographics := .placeholder "Demographic data is not available for this area."
                historical := hist
                forecast := fore } :=
  c8_no_census_placeholder {} rfl

/-- C9 (spec-modelled): every `PropertyData` constructed by the modelled
backend aggregation has, whenever `historicalValues` or `predictionPoints`
is present, a non-empty point list ordered by ascending date. -/
theorem c9_series_invariant (base : PropertyData) (rawHist : List HistoricalValue)
    (rawPred : List PredictionPoint) :
    (∀ l, (mkPropertyData base rawHist rawPred).historicalValues = some l →
      l ≠ [] ∧ l.Sorted hvDateLe) ∧
    (∀ l, (mkPropertyData base rawHist rawPred).predictionPoints = some l →
      l ≠ [] ∧ l.Sorted ppDateLe) := by
  haveI : IsTotal HistoricalValue hvDateLe := ⟨fun a b => charsLe_total _ _⟩
  haveI : IsTrans HistoricalValue hvDateLe := ⟨fun _ _ _ => charsLe_trans _ _ _⟩
  haveI : IsTotal PredictionPoint ppDateLe := ⟨fun a b => charsLe_total _ _⟩
  haveI : IsTrans PredictionPoint ppDateLe := ⟨fun _ _ _ => charsLe_trans _ _ _⟩
  constructor
  · intro l hl
    have h : mkHistoricalSeries rawHist = some l := hl
    rw [mkHistoricalSeries] at h
    split at h
    · exact absurd h (by simp)
    · rename_i hne
      obtain rfl : List.insertionSort hvDateLe rawHist = l := Option.some.inj h
      refine ⟨?_, List.sorted_insertionSort hvDateLe rawHist⟩
      intro h0
      apply hne
      have hlen := List.length_insertionSort hvDateLe rawHist
      rw [h0] at hlen
      exact List.length_eq_zero.mp hlen.symm
  · intro l hl
    have h : mkPredictionSeries rawPred = some l := hl
    rw [mkPredictionSeries] at h
    split at h
    · exact absurd h (by simp)
    · rename_i hne
      obtain rfl : List.insertionSort ppDateLe rawPred = l := Option.some.inj h
      refine ⟨?_, List.sorted_insertionSort ppDateLe rawPred⟩
      intro h0
      apply hne
      have hlen := List.length_insertionSort ppDateLe rawPred
      rw [h0] at hlen
      exact List.length_eq_zero.mp hlen.symm

/-- Witness for C9: out-of-order raw points come out non-empty and sorted. -/
theorem c9_witness :
    ([⟨"2023-01-01", 300000⟩, ⟨"2024-01-01", 320000⟩] : List HistoricalValue) ≠ [] ∧
    List.Sorted hvDateLe [⟨"2023-01-01", 300000⟩, ⟨"2024-01-01", 320000⟩] :=
  (c9_series_invariant {} [⟨"2024-01-01", 320000⟩, ⟨"2023-01-01", 300000⟩] []).1
    [⟨"2023-01-01", 300000⟩, ⟨"2024-01-01", 320000⟩] (by decide)

/-- C10: the series plotted by `PredictionChart` is, in order, the last
element of the historical list followed by all prediction points when the
historical list is present and non-empty, and exactly the prediction
points otherwise; each point maps to the pair `(date, value)` with order
preserved. -/
theorem c10_prediction_series (d : List PredictionPoint) :
    predictionChartSeries d none = d.map (fun p => (p.date, p.value)) ∧
    predictionChartSeries d (some []) = d.map (fun p => (p.date, p.value)) ∧
    ∀ (h : List PredictionPoint) (x : PredictionPoint),
      predictionChartSeries d (some (h ++ [x])) =
        (x :: d).map (fun p => (p.date, p.value)) := by
  refine ⟨rfl, rfl, ?_⟩
  intro h x
  simp [predictionChartSeries, predictionCombinedData]

end ShelterSignal
